import Mathlib

/-!
Verification of the JARVIS desktop assistant command-interpretation core
(`command_processor.py`, `ai_integration.py`, `system_controller.py`).

The Python source is shallowly embedded: pure string manipulation is
translated to Lean functions on `String`/`List Char`; Python exceptions are
modelled with `Except PyErr`; the mutable `AIAssistant` object state is an
explicit `AIState` record threaded through the operations; external
collaborators (system controller, remote AI backends) are function
parameters.  Regular-expression patterns from the dispatch table are
translated into a small abstract syntax (`RElem`) covering exactly the
constructs the table uses (literal characters, the whitespace class with
`+`/`*` repetition, and a single capture group of `.+`, `.*` or `\d+`),
matched by a backtracking searcher that mirrors Python `re.search`
semantics (leftmost start position, greedy repetition with backtracking).
-/

/-- Characters of the Python `\s` class (ASCII range, which is all the
assistant ever feeds the dispatcher). -/
def isPySpace (c : Char) : Bool :=
  c = ' ' || c = '\t' || c = '\n' || c = '\r' || c = '\x0b' || c = '\x0c'

/-- Characters of the Python `\d` class (ASCII digits). -/
def isPyDigit (c : Char) : Bool :=
  '0' ≤ c && c ≤ '9'

/-- Characters matched by `.` in a Python regex without `re.DOTALL`:
anything but a newline. -/
def isDotChar (c : Char) : Bool :=
  c ≠ '\n'

/-- Models Python `str.lower()` on the ASCII inputs used here. -/
def pyLower (s : String) : String :=
  String.mk (s.toList.map Char.toLower)

/-- Models Python `str.strip()`: removes leading and trailing whitespace. -/
def pyStrip (s : String) : String :=
  String.mk (((s.toList.dropWhile isPySpace).reverse.dropWhile isPySpace).reverse)

/-- Models the Python slice `l[-m:]` for a nonnegative `m`.  Note the Python
quirk: `l[-0:]` is the whole list, not the empty one. -/
def pyTakeLastSlice (m : Nat) (l : List α) : List α :=
  if m = 0 then l else l.drop (l.length - m)

/-- `isPrefixCharList n h` decides whether `n` is a prefix of `h`. -/
def isPrefixCharList : List Char → List Char → Bool
  | [], _ => true
  | _ :: _, [] => false
  | a :: as, b :: bs => a = b && isPrefixCharList as bs

/-- Contiguous-substring test on character lists, used for the Python
`needle in haystack` membership test on strings. -/
def containsSub : List Char → List Char → Bool
  | hay, needle =>
    isPrefixCharList needle hay ||
      (match hay with
       | [] => false
       | _ :: t => containsSub t needle)

/-- Models the Python substring test `needle in hay`. -/
def strContains (hay needle : String) : Bool :=
  containsSub hay.toList needle.toList

/-- Models Python `s.replace(old, "")` for a one-character `old` (the only
form the source uses, in `level.replace(\x27%\x27, \x27\x27)`): removing every
occurrence of a single character is filtering it out. -/
def pyRemoveChar (c : Char) (s : String) : String :=
  String.mk (s.toList.filter (fun d => d != c))

/-! ### A model of Python `int(str)`

`int` strips surrounding whitespace, accepts one optional sign, and then a
nonempty digit sequence in which single underscores may separate digits. -/

/-- After one digit has been consumed: the rest may be digits, with single
underscores allowed only between digits.  Returns the digits seen. -/
def pyDigitsRest : List Char → Option (List Char)
  | [] => some []
  | c :: cs =>
    if isPyDigit c then (pyDigitsRest cs).map (fun ds => c :: ds)
    else if c = '_' then
      match cs with
      | [] => none
      | d :: ds =>
        if isPyDigit d then (pyDigitsRest ds).map (fun es => d :: es) else none
    else none

/-- Numeric value of a digit list. -/
def natOfDigits (ds : List Char) : Int :=
  ds.foldl (fun a c => a * 10 + (Int.ofNat (c.toNat - 48))) 0

/-- Parses an unsigned decimal literal as Python `int` does. -/
def pyIntDigits : List Char → Option Int
  | [] => none
  | c :: cs =>
    if isPyDigit c then (pyDigitsRest cs).map (fun ds => natOfDigits (c :: ds))
    else none

/-- Models Python `int(s)`: `some n` on success, `none` when `int` would
raise `ValueError`. -/
def pyIntOfString (s : String) : Option Int :=
  match (pyStrip s).toList with
  | '+' :: rest => pyIntDigits rest
  | '-' :: rest => (pyIntDigits rest).map (fun n => -n)
  | rest => pyIntDigits rest

/-! ### Regex engine for the dispatch table

Every pattern in `CommandProcessor.command_patterns` is a concatenation of
literal characters, `\s+`, `\s*`, and at most one capture group of the
shape `(.+)`, `(.*)` or `(\d+)`.  `RElem` is that abstract syntax. -/

/-- One element of a translated pattern. -/
inductive RElem where
  | lit (c : Char)
  | ws1
  | ws0
  | grpAny1
  | grpAny0
  | grpDigits
deriving DecidableEq, Repr

/-- Literal pattern elements for a string of ordinary characters. -/
def lits (s : String) : List RElem :=
  s.toList.map RElem.lit

/-- All ways an element can consume a prefix of `s` drawn from character
class `p`, longest first (greedy), with at least `minLen` characters. -/
def classSplits (p : Char → Bool) (minLen : Nat) (s : List Char) : List (List Char × List Char) :=
  let run := (s.takeWhile p).length
  (List.range (run + 1)).reverse.filterMap fun k =>
    if minLen ≤ k then some (s.take k, s.drop k) else none

/-- The candidate (consumed, remainder) splits for one pattern element, in
the order a backtracking matcher tries them (greedy: longest first). -/
def elemSplits : RElem → List Char → List (List Char × List Char)
  | .lit _, [] => []
  | .lit c, d :: ds => if d = c then [([c], ds)] else []
  | .ws1, s => classSplits isPySpace 1 s
  | .ws0, s => classSplits isPySpace 0 s
  | .grpAny1, s => classSplits isDotChar 1 s
  | .grpAny0, s => classSplits isDotChar 0 s
  | .grpDigits, s => classSplits isPyDigit 1 s

/-- Whether a pattern element is a capture group. -/
def isGrp : RElem → Bool
  | .grpAny1 => true
  | .grpAny0 => true
  | .grpDigits => true
  | _ => false

/-- First successful result of `f` over a list, in order. -/
def firstSome : List α → (α → Option β) → Option β
  | [], _ => none
  | a :: as, f =>
    match f a with
    | some b => some b
    | none => firstSome as f

/-- Backtracking match of a pattern against a prefix of `s` (anchored at the
start of `s`), fuel-indexed for structural termination.  `some cap` means a
match, where `cap` carries the first capture group when the pattern has one.
The fuel only needs to exceed the pattern length. -/
def matchHereF : Nat → List RElem → List Char → Option (Option (List Char))
  | 0, _, _ => none
  | _ + 1, [], _ => some none
  | n + 1, e :: rest, s =>
    firstSome (elemSplits e s) fun cs =>
      match matchHereF n rest cs.2 with
      | some cap => some (if isGrp e then some cs.1 else cap)
      | none => none

/-- Anchored match at the start of `s`. -/
def matchHere (p : List RElem) (s : List Char) : Option (Option (List Char)) :=
  matchHereF (p.length + 1) p s

/-- Models Python `re.search`: try each start position left to right. -/
def pySearch (p : List RElem) : List Char → Option (Option (List Char))
  | [] => matchHere p []
  | c :: rest =>
    match matchHere p (c :: rest) with
    | some cap => some cap
    | none => pySearch p rest

/-- `re.search` on strings.  `none`: no match.  `some none`: a match for a
groupless pattern (the handler is then invoked with no argument).
`some (some g)`: a match whose first group captured `g`. -/
def reSearch (p : List RElem) (s : String) : Option (Option String) :=
  (pySearch p s.toList).map (fun cap => cap.map (fun cs => String.mk cs))

/-! ### Python exceptions -/

/-- The exceptions the embedded code can raise. -/
inductive PyErr where
  | nameError (name : String)
  | valueError (msg : String)
  | typeError (msg : String)
  | other (msg : String)
deriving DecidableEq, Repr

/-! ### The command dispatcher (`CommandProcessor.process_command`)

A handler is a bound method of the processor: it receives the captured
argument (`none` models being called with no argument when the matched
pattern has no group), reads and writes the shared mutable state, and
either returns a response string or raises. -/

/-- A dispatch-table handler over shared mutable state `σ`.  The returned
state is the state at return or at raise (Python keeps mutations made
before an exception). -/
def Handler (σ : Type) := Option String → σ → σ × Except PyErr String

/-- One `(pattern, handler)` entry of `command_patterns`. -/
structure Rule (σ : Type) where
  pattern : List RElem
  handler : Handler σ

/-- The dispatch loop body: first rule whose pattern search-matches the
processed command, with its captured argument. -/
def findFirstRule : List (Rule σ) → String → Option (Handler σ × Option String)
  | [], _ => none
  | r :: rest, cmd =>
    match reSearch r.pattern cmd with
    | some cap => some (r.handler, cap)
    | none => findFirstRule rest cmd

/-- Response of `process_command` when input is falsy (`if not command`). -/
def didntCatchResponse : String := "I didn\x27t catch that, sir."

/-- Response of the `except` branch around handler invocation. -/
def errorResponse : String := "I encountered an error processing that command, sir."

/-- Invocation of a matched handler inside the `try`/`except` of
`process_command`: a raised exception is caught and converted to the
generic error sentence (state changes made before the raise persist). -/
def applyMatched (h : Handler σ) (cap : Option String) (st : σ) : σ × String :=
  let r := h cap st
  match r.2 with
  | Except.ok resp => (r.1, resp)
  | Except.error _ => (r.1, errorResponse)

/-- `CommandProcessor.process_command`.  `ask_question` is the injected
`self.ai_assistant.ask_question` used by `handle_general_query`. -/
def processCommand (rules : List (Rule σ)) (ask_question : String → σ → σ × String)
    (command : String) (st : σ) : σ × String :=
  if command = "" then (st, didntCatchResponse)
  else
    match findFirstRule rules (pyStrip (pyLower command)) with
    | some hc => applyMatched hc.1 hc.2 st
    | none => ask_question (pyStrip (pyLower command)) st

/-! ### `AIAssistant` state (`ai_integration.py`) -/

/-- One entry of `conversation_history`. -/
structure DialogueTurn where
  user : String
  assistant : String
  timestamp : String
deriving DecidableEq, Repr

/-- The mutable fields of `AIAssistant` the core operations touch. -/
structure AIState where
  history : List DialogueTurn
  max_history_length : Nat
  jarvis_personality : String
deriving DecidableEq, Repr

/-- The default personality prompt assigned in `AIAssistant.__init__`. -/
def defaultPersonality : String :=
  "\n        You are JARVIS, an advanced AI assistant like from Iron Man. You should:\n        - Be intelligent, helpful, and efficient\n        - Speak in a sophisticated but friendly manner\n        - Address the user as \"sir\" or \"boss\" occasionally\n        - Be concise but informative\n        - Show personality while being professional\n        - Act like you\x27re part of an advanced technological system\n        "

/-- `AIAssistant.__init__`: empty history, capacity 10, default prompt. -/
def initAIState : AIState :=
  { history := [], max_history_length := 10, jarvis_personality := defaultPersonality }

/-- `AIAssistant.add_to_history`: append the turn, then keep only the last
`max_history_length` entries when over capacity (Python `h[-max:]`). -/
def add_to_history (now : String) (st : AIState) (user_input assistant_response : String) : AIState :=
  let h := st.history ++ [⟨user_input, assistant_response, now⟩]
  let h2 := if h.length > st.max_history_length then pyTakeLastSlice st.max_history_length h else h
  { st with history := h2 }

/-- `AIAssistant.clear_history`. -/
def clear_history (st : AIState) : AIState :=
  { st with history := [] }

/-- Template installed by `set_personality_mode("professional")`. -/
def professionalProfile : String :=
  "You are JARVIS, a professional AI assistant. Be formal, efficient, and direct."

/-- Template installed by `set_personality_mode("friendly")`. -/
def friendlyProfile : String :=
  "You are JARVIS, a friendly AI assistant. Be warm, conversational, and helpful."

/-- Template installed by `set_personality_mode("technical")`. -/
def technicalProfile : String :=
  "You are JARVIS, a technical AI assistant. Provide detailed, technical explanations."

/-- Template installed by `set_personality_mode("iron_man")`. -/
def ironManProfile : String :=
  "You are JARVIS from Iron Man. Be sophisticated, slightly witty, and address the user as \x27sir\x27 or \x27Mr. Stark\x27."

/-- The `modes` dictionary of `AIAssistant.set_personality_mode`. -/
def personality_modes : List (String × String) :=
  [("professional", professionalProfile),
   ("friendly", friendlyProfile),
   ("technical", technicalProfile),
   ("iron_man", ironManProfile)]

/-- Error returned by `set_personality_mode` for an unknown mode. -/
def invalidModeResponse : String :=
  "Invalid personality mode. Available modes: professional, friendly, technical, iron_man."

/-- `AIAssistant.set_personality_mode`. -/
def set_personality_mode (st : AIState) (mode : String) : AIState × String :=
  match personality_modes.find? (fun p => p.1 == mode) with
  | some p => ({ st with jarvis_personality := p.2 }, "Personality mode updated to " ++ mode ++ ", sir.")
  | none => (st, invalidModeResponse)

/-! ### The conversational fallback adapter -/

/-- `ask_claude` response when the client was never initialised. -/
def claudeUnavailable : String :=
  "Claude AI is not available. Please set ANTHROPIC_API_KEY environment variable."

/-- `ask_openai` response when the client was never initialised. -/
def openaiUnavailable : String :=
  "OpenAI is not available. Please set OPENAI_API_KEY environment variable."

/-- Fixed apologetic sentence of `ask_claude` on a backend fault. -/
def claudeApology : String :=
  "I\x27m having trouble connecting to my AI systems right now, sir."

/-- Fixed apologetic sentence of `ask_openai` on a backend fault. -/
def openaiApology : String :=
  "I\x27m experiencing difficulties with my neural networks, sir."

/-- The prompt `ask_claude` builds: personality, then (overriding the
context form when history is nonempty) the last 3 turns, then the question.
This mirrors the successive reassignments of `full_prompt`. -/
def claude_full_prompt (st : AIState) (question : String) (context : Option String) : String :=
  let base := st.jarvis_personality ++ "\n\nUser: " ++ question
  let base2 :=
    match context with
    | some c => st.jarvis_personality ++ "\n\nContext: " ++ c ++ "\n\nUser: " ++ question
    | none => base
  if st.history = [] then base2
  else
    let history_text := String.intercalate "\n"
      ((pyTakeLastSlice 3 st.history).map
        (fun h => "User: " ++ h.user ++ "\nJARVIS: " ++ h.assistant))
    st.jarvis_personality ++ "\n\nRecent conversation:\n" ++ history_text ++ "\n\nUser: " ++ question

/-- The `(role, content)` message list `ask_openai` builds. -/
def openai_messages (st : AIState) (question : String) (context : Option String) : List (String × String) :=
  [("system", st.jarvis_personality)]
    ++ ((pyTakeLastSlice 3 st.history).flatMap
        (fun h => [("user", h.user), ("assistant", h.assistant)]))
    ++ (match context with
        | some c => [("system", "Context: " ++ c)]
        | none => [])
    ++ [("user", question)]

/-- `AIAssistant.ask_claude`.  The remote call is the injected `create`
function; `now` models `datetime.now().isoformat()` for the history entry.
On success the turn is appended to history; on a raised backend fault the
exception is caught, history is untouched, and the fixed apology returned. -/
def ask_claude (claude_client : Option (String → Except PyErr String)) (now : String)
    (st : AIState) (question : String) (context : Option String) : AIState × String :=
  match claude_client with
  | none => (st, claudeUnavailable)
  | some create =>
    match create (claude_full_prompt st question context) with
    | Except.ok answer => (add_to_history now st question answer, answer)
    | Except.error _ => (st, claudeApology)

/-- `AIAssistant.ask_openai`, analogous to `ask_claude`. -/
def ask_openai (openai_client : Option (List (String × String) → Except PyErr String)) (now : String)
    (st : AIState) (question : String) (context : Option String) : AIState × String :=
  match openai_client with
  | none => (st, openaiUnavailable)
  | some create =>
    match create (openai_messages st question context) with
    | Except.ok answer => (add_to_history now st question answer, answer)
    | Except.error _ => (st, openaiApology)

/-- Empty-question response of `ask_question`. -/
def repeatQuestionResponse : String :=
  "I didn\x27t catch that, sir. Could you repeat your question?"

/-- `AIAssistant.provide_basic_response`.  `current_time_long` models the
`datetime.now().strftime` result used in the time branch. -/
def provide_basic_response (current_time_long : String) (question : String) : String :=
  let q := pyLower question
  if strContains q "hello" || strContains q "hi" || strContains q "hey" || strContains q "greetings" then
    "Hello sir. How may I assist you today?"
  else if strContains q "time" || strContains q "date" || strContains q "day" then
    "The current time is " ++ current_time_long ++ ", sir."
  else if strContains q "weather" then
    "I would need to access weather services to provide that information, sir."
  else if strContains q "how are you" || strContains q "how do you feel" then
    "All systems are operating at optimal capacity, sir."
  else
    "I apologize, sir, but I need access to my AI systems to answer that question properly."

/-- `AIAssistant.ask_question`: strip the question, return the fixed
repeat-request on empty input, else route to the preferred available
backend, then any available backend, then the local basic responder. -/
def ask_question (claude_client : Option (String → Except PyErr String))
    (openai_client : Option (List (String × String) → Except PyErr String))
    (now current_time_long : String) (st : AIState) (question : String)
    (context : Option String) (preferred_ai : String) : AIState × String :=
  let q := pyStrip question
  if q = "" then (st, repeatQuestionResponse)
  else if preferred_ai = "claude" && claude_client.isSome then
    ask_claude claude_client now st q context
  else if preferred_ai = "openai" && openai_client.isSome then
    ask_openai openai_client now st q context
  else if claude_client.isSome then
    ask_claude claude_client now st q context
  else if openai_client.isSome then
    ask_openai openai_client now st q context
  else (st, provide_basic_response current_time_long q)

/-- `CommandProcessor.handle_general_query`: forwards the query to
`ask_question` with no context and the default preferred backend. -/
def jarvisAskQuestion (claude_client : Option (String → Except PyErr String))
    (openai_client : Option (List (String × String) → Except PyErr String))
    (now current_time_long : String) : String → AIState → AIState × String :=
  fun query st => ask_question claude_client openai_client now current_time_long st query none "claude"

/-! ### Individual handlers (`command_processor.py`, `system_controller.py`) -/

/-- Validation error of `handle_set_volume` on an unparseable level. -/
def invalidVolumeResponse (level : String) : String :=
  "Invalid volume level \x27" ++ level ++ "\x27, sir. Please specify a number between 0 and 100."

/-- `CommandProcessor.handle_set_volume`: remove every percent sign
(Python `str.replace` replaces all occurrences), strip, parse with `int`,
and delegate the parsed value unchanged to the collaborator; a
`ValueError` is caught and turned into the validation sentence. -/
def handle_set_volume (adjust_volume : Int → String) (level : String) : String :=
  match pyIntOfString (pyStrip (pyRemoveChar '%' level)) with
  | some volume_level => adjust_volume volume_level
  | none => invalidVolumeResponse level

/-- Prompt returned by `handle_create_folder` for a blank argument. -/
def createFolderPrompt : String :=
  "Please specify a folder name, sir. For example: \x27create folder MyDocuments\x27"

/-- `CommandProcessor.handle_create_folder`.  The blank-argument branch
returns the prompt.  The non-blank branch evaluates
`os.path.join(os.path.expanduser("~"), "Desktop")`, but `command_processor.py`
never imports `os`, so that line raises `NameError: name \x27os\x27 is not
defined` and the `create_folder` collaborator is never reached. -/
def handle_create_folder (_create_folder : String → String) (folder_name : String) : Except PyErr String :=
  if folder_name = "" || pyStrip folder_name = "" then
    Except.ok createFolderPrompt
  else
    Except.error (PyErr.nameError "os")

/-- `CommandProcessor.handle_mute`: calls the collaborator with level `0`,
discards its returned status string, and answers with a constant. -/
def handle_mute (adjust_volume : Int → σ → σ × String) (st : σ) : σ × String :=
  let r := adjust_volume 0 st
  (r.1, "Audio muted, sir.")

/-- `SystemController.adjust_volume`: clamp the level into `[0, 100]`, run
the platform volume action (abstracted as `run_volume_action`, which may
raise), and report.  Only the string-level behaviour is modelled; the
subprocess plumbing is the collaborator boundary. -/
def adjust_volume (run_volume_action : Int → Except PyErr Unit) (level : Int) : String :=
  let clamped := max 0 (min 100 level)
  match run_volume_action clamped with
  | Except.ok _ => "Volume set to " ++ toString clamped ++ "%"
  | Except.error _ => "Volume adjustment failed - trying alternative method"

/-! ### The concrete dispatch table

`command_patterns` is a `dict` whose keys are all distinct, so iteration
order is exactly the order the entries are written in the source.  The
handler values are the processor's bound methods; they are abstracted here
as the fields of a `Handlers` record so that theorems can quantify over
the handler behaviour while keeping the patterns and their association
exactly as in the source. -/

/-- The bound handler methods referenced by `command_patterns`. -/
structure Handlers (σ : Type) where
  handle_open_application : Handler σ
  handle_close_application : Handler σ
  handle_open_file : Handler σ
  handle_open_folder : Handler σ
  handle_create_folder : Handler σ
  handle_delete_file : Handler σ
  handle_search_files : Handler σ
  handle_play_music : Handler σ
  handle_play_youtube : Handler σ
  handle_search_youtube : Handler σ
  handle_open_website : Handler σ
  handle_system_info : Handler σ
  handle_set_volume : Handler σ
  handle_increase_volume : Handler σ
  handle_decrease_volume : Handler σ
  handle_mute : Handler σ
  handle_screenshot : Handler σ
  handle_shutdown : Handler σ
  handle_restart : Handler σ
  handle_lock_screen : Handler σ
  handle_time : Handler σ
  handle_date : Handler σ
  handle_greeting : Handler σ
  handle_clear_history : Handler σ
  handle_set_personality : Handler σ
  handle_help : Handler σ

/-- `CommandProcessor.command_patterns`, entry for entry in source order. -/
def command_patterns (h : Handlers σ) : List (Rule σ) :=
  [⟨lits "open" ++ [.ws1, .grpAny1], h.handle_open_application⟩,
   ⟨lits "launch" ++ [.ws1, .grpAny1], h.handle_open_application⟩,
   ⟨lits "start" ++ [.ws1, .grpAny1], h.handle_open_application⟩,
   ⟨lits "run" ++ [.ws1, .grpAny1], h.handle_open_application⟩,
   ⟨lits "close" ++ [.ws1, .grpAny1], h.handle_close_application⟩,
   ⟨lits "quit" ++ [.ws1, .grpAny1], h.handle_close_application⟩,
   ⟨lits "exit" ++ [.ws1, .grpAny1], h.handle_close_application⟩,
   ⟨lits "open" ++ [.ws1] ++ lits "file" ++ [.ws1, .grpAny1], h.handle_open_file⟩,
   ⟨lits "open" ++ [.ws1] ++ lits "folder" ++ [.ws1, .grpAny1], h.handle_open_folder⟩,
   ⟨lits "create" ++ [.ws1] ++ lits "folder" ++ [.ws1, .grpAny1], h.handle_create_folder⟩,
   ⟨lits "create" ++ [.ws1] ++ lits "a" ++ [.ws1] ++ lits "folder" ++ [.ws1, .grpAny1], h.handle_create_folder⟩,
   ⟨lits "make" ++ [.ws1] ++ lits "folder" ++ [.ws1, .grpAny1], h.handle_create_folder⟩,
   ⟨lits "new" ++ [.ws1] ++ lits "folder" ++ [.ws1, .grpAny1], h.handle_create_folder⟩,
   ⟨lits "delete" ++ [.ws1] ++ lits "file" ++ [.ws1, .grpAny1], h.handle_delete_file⟩,
   ⟨lits "search" ++ [.ws1] ++ lits "for" ++ [.ws1, .grpAny1], h.handle_search_files⟩,
   ⟨lits "play" ++ [.ws1] ++ lits "music" ++ [.ws0, .grpAny0], h.handle_play_music⟩,
   ⟨lits "play" ++ [.ws1] ++ lits "song" ++ [.ws0, .grpAny0], h.handle_play_music⟩,
   ⟨lits "play" ++ [.ws1, .grpAny1, .ws1] ++ lits "on" ++ [.ws1] ++ lits "youtube", h.handle_play_youtube⟩,
   ⟨lits "youtube" ++ [.ws1, .grpAny1], h.handle_search_youtube⟩,
   ⟨lits "search" ++ [.ws1] ++ lits "youtube" ++ [.ws1, .grpAny1], h.handle_search_youtube⟩,
   ⟨lits "music" ++ [.ws0, .grpAny0], h.handle_play_music⟩,
   ⟨lits "open" ++ [.ws1] ++ lits "website" ++ [.ws1, .grpAny1], h.handle_open_website⟩,
   ⟨lits "go" ++ [.ws1] ++ lits "to" ++ [.ws1, .grpAny1], h.handle_open_website⟩,
   ⟨lits "browse" ++ [.ws1, .grpAny1], h.handle_open_website⟩,
   ⟨lits "system" ++ [.ws1] ++ lits "info", h.handle_system_info⟩,
   ⟨lits "system" ++ [.ws1] ++ lits "status", h.handle_system_info⟩,
   ⟨lits "how" ++ [.ws1] ++ lits "is" ++ [.ws1] ++ lits "the" ++ [.ws1] ++ lits "system", h.handle_system_info⟩,
   ⟨lits "set" ++ [.ws1] ++ lits "volume" ++ [.ws1] ++ lits "to" ++ [.ws1, .grpDigits], h.handle_set_volume⟩,
   ⟨lits "volume" ++ [.ws1, .grpDigits], h.handle_set_volume⟩,
   ⟨lits "set" ++ [.ws1] ++ lits "volume" ++ [.ws1, .grpDigits], h.handle_set_volume⟩,
   ⟨lits "increase" ++ [.ws1] ++ lits "volume", h.handle_increase_volume⟩,
   ⟨lits "decrease" ++ [.ws1] ++ lits "volume", h.handle_decrease_volume⟩,
   ⟨lits "mute", h.handle_mute⟩,
   ⟨lits "take" ++ [.ws1] ++ lits "screenshot", h.handle_screenshot⟩,
   ⟨lits "screenshot", h.handle_screenshot⟩,
   ⟨lits "capture" ++ [.ws1] ++ lits "screen", h.handle_screenshot⟩,
   ⟨lits "shutdown" ++ [.ws1] ++ lits "system", h.handle_shutdown⟩,
   ⟨lits "restart" ++ [.ws1] ++ lits "system", h.handle_restart⟩,
   ⟨lits "lock" ++ [.ws1] ++ lits "screen", h.handle_lock_screen⟩,
   ⟨lits "what" ++ [.ws1] ++ lits "time" ++ [.ws1] ++ lits "is" ++ [.ws1] ++ lits "it", h.handle_time⟩,
   ⟨lits "current" ++ [.ws1] ++ lits "time", h.handle_time⟩,
   ⟨lits "what" ++ [.ws1] ++ lits "date" ++ [.ws1] ++ lits "is" ++ [.ws1] ++ lits "it", h.handle_date⟩,
   ⟨lits "current" ++ [.ws1] ++ lits "date", h.handle_date⟩,
   ⟨lits "hello" ++ [.ws0] ++ lits "jarvis", h.handle_greeting⟩,
   ⟨lits "hi" ++ [.ws0] ++ lits "jarvis", h.handle_greeting⟩,
   ⟨lits "hey" ++ [.ws0] ++ lits "jarvis", h.handle_greeting⟩,
   ⟨lits "good" ++ [.ws1] ++ lits "morning", h.handle_greeting⟩,
   ⟨lits "good" ++ [.ws1] ++ lits "afternoon", h.handle_greeting⟩,
   ⟨lits "good" ++ [.ws1] ++ lits "evening", h.handle_greeting⟩,
   ⟨lits "clear" ++ [.ws1] ++ lits "history", h.handle_clear_history⟩,
   ⟨lits "set" ++ [.ws1] ++ lits "personality" ++ [.ws1, .grpAny1], h.handle_set_personality⟩,
   ⟨lits "help", h.handle_help⟩,
   ⟨lits "what" ++ [.ws1] ++ lits "can" ++ [.ws1] ++ lits "you" ++ [.ws1] ++ lits "do", h.handle_help⟩,
   ⟨lits "commands", h.handle_help⟩]

/-- Lifts a one-string-argument handler body into the dispatch calling
convention: the dispatcher passes `match.group(1)` when the pattern has a
group; being invoked with no argument would be a `TypeError` in Python. -/
def liftArg (f : String → Except PyErr String) : Handler σ :=
  fun cap st =>
    match cap with
    | some a => (st, f a)
    | none => (st, Except.error (PyErr.typeError "missing positional argument"))

/-- A handler that ignores everything and succeeds with a fixed reply;
used to instantiate handler slots whose behaviour a statement quantifies
away from. -/
def constHandler (σ : Type) : Handler σ :=
  fun _ st => (st, Except.ok "HANDLED")

/-- A full handler assignment built from `constHandler`. -/
def dummyHandlers (σ : Type) : Handlers σ :=
  ⟨constHandler σ, constHandler σ, constHandler σ, constHandler σ, constHandler σ,
   constHandler σ, constHandler σ, constHandler σ, constHandler σ, constHandler σ,
   constHandler σ, constHandler σ, constHandler σ, constHandler σ, constHandler σ,
   constHandler σ, constHandler σ, constHandler σ, constHandler σ, constHandler σ,
   constHandler σ, constHandler σ, constHandler σ, constHandler σ, constHandler σ,
   constHandler σ⟩

/-! ### Helper lemmas -/

/-- The last `m` elements of a list. -/
def takeLastN (m : Nat) (l : List α) : List α :=
  l.drop (l.length - m)

theorem takeLastN_of_le {m : Nat} {l : List α} (h : l.length ≤ m) : takeLastN m l = l := by
  unfold takeLastN
  have h0 : l.length - m = 0 := by omega
  rw [h0, List.drop_zero]

theorem length_takeLastN_le (m : Nat) (l : List α) : (takeLastN m l).length ≤ m := by
  unfold takeLastN
  rw [List.length_drop]
  omega

/-- Trimming to the last `m`, appending, and trimming again is the same as
trimming once at the end. -/
theorem takeLastN_append_absorb (m : Nat) (x y : List α) :
    takeLastN m (takeLastN m x ++ y) = takeLastN m (x ++ y) := by
  rcases le_or_lt x.length m with hx | hx
  · rw [takeLastN_of_le hx]
  · unfold takeLastN
    have hlen : (x.drop (x.length - m)).length = m := by
      rw [List.length_drop]; omega
    rw [List.length_append, List.length_append, hlen,
        List.drop_append_eq_append_drop, List.drop_append_eq_append_drop,
        List.drop_drop, hlen]
    have e1 : x.length - m + (m + y.length - m) = x.length + y.length - m := by omega
    have e2 : m + y.length - m - m = x.length + y.length - m - x.length := by omega
    rw [e1, e2]

theorem add_to_history_history (now u a : String) (st : AIState)
    (hcap : st.max_history_length = 10) :
    (add_to_history now st u a).history = takeLastN 10 (st.history ++ [⟨u, a, now⟩]) := by
  simp only [add_to_history, hcap]
  split
  · next h =>
    unfold pyTakeLastSlice takeLastN
    simp
  · next h =>
    rw [takeLastN_of_le (by omega)]

theorem add_to_history_max (now u a : String) (st : AIState) :
    (add_to_history now st u a).max_history_length = st.max_history_length := by
  simp only [add_to_history]

theorem findFirstRule_of_first {σ : Type} {rules : List (Rule σ)} {cmd : String} {i : Nat}
    (hi : i < rules.length) {cap : Option String}
    (hmatch : reSearch (rules.get ⟨i, hi⟩).pattern cmd = some cap)
    (hearlier : ∀ j (hj : j < i), reSearch (rules.get ⟨j, hj.trans hi⟩).pattern cmd = none) :
    findFirstRule rules cmd = some ((rules.get ⟨i, hi⟩).handler, cap) := by
  induction rules generalizing i with
  | nil => exact absurd hi (Nat.not_lt_zero i)
  | cons r rest ih =>
    cases i with
    | zero =>
      simp only [List.get] at hmatch ⊢
      simp only [findFirstRule]
      rw [hmatch]
    | succ i =>
      have h0 : reSearch r.pattern cmd = none := by
        have h := hearlier 0 (Nat.succ_pos i)
        simpa using h
      simp only [findFirstRule]
      rw [h0]
      have hi2 : i < rest.length := Nat.lt_of_succ_lt_succ hi
      rw [List.get_cons_succ]
      exact ih hi2 (by simpa [List.get_cons_succ] using hmatch)
        (fun j hj => by simpa [List.get_cons_succ] using hearlier (j + 1) (Nat.succ_lt_succ hj))

/-! ### Sequences of history operations

The conversation history is mutated only through `add_to_history`
(called by `ask_claude`/`ask_openai` after a successful backend reply)
and `clear_history`; `max_history_length` is set to 10 in `__init__`
and never reassigned. -/

/-- One history-mutating operation of `AIAssistant`. -/
inductive HistOp where
  | addTurn (u a ts : String)
  | clearAll
deriving DecidableEq, Repr

/-- Interpretation of a history operation on the assistant state. -/
def applyHistOp (st : AIState) : HistOp → AIState
  | .addTurn u a ts => add_to_history ts st u a
  | .clearAll => clear_history st

/-- The turn record built from an (input, output, timestamp) triple. -/
def turnOf (t : String × String × String) : DialogueTurn :=
  ⟨t.1, t.2.1, t.2.2⟩

/-- The operation sequence that appends the given triples in order. -/
def addOps (l : List (String × String × String)) : List HistOp :=
  l.map (fun t => HistOp.addTurn t.1 t.2.1 t.2.2)

theorem foldl_applyHistOp_invariant (ops : List HistOp) (st : AIState)
    (hcap : st.max_history_length = 10) (hlen : st.history.length ≤ 10) :
    (ops.foldl applyHistOp st).max_history_length = 10
    ∧ (ops.foldl applyHistOp st).history.length ≤ 10 := by
  induction ops generalizing st with
  | nil => exact ⟨hcap, hlen⟩
  | cons op rest ih =>
    cases op with
    | addTurn u a ts =>
      simp only [List.foldl_cons, applyHistOp]
      exact ih _ (by rw [add_to_history_max]; exact hcap)
        (by rw [add_to_history_history ts u a st hcap]; exact length_takeLastN_le 10 _)
    | clearAll =>
      simp only [List.foldl_cons, applyHistOp]
      exact ih _ (by simp [clear_history, hcap]) (by simp [clear_history])

theorem foldl_adds_history (l : List (String × String × String)) (st : AIState)
    (hcap : st.max_history_length = 10) (hlen : st.history.length ≤ 10) :
    ((addOps l).foldl applyHistOp st).history = takeLastN 10 (st.history ++ l.map turnOf) := by
  induction l generalizing st with
  | nil =>
    simp only [addOps, List.map_nil, List.foldl_nil, List.append_nil]
    exact (takeLastN_of_le hlen).symm
  | cons t rest ih =>
    simp only [addOps, List.map_cons, List.foldl_cons, applyHistOp] at ih ⊢
    rw [ih (add_to_history t.2.2 st t.1 t.2.1)
          (by rw [add_to_history_max]; exact hcap)
          (by rw [add_to_history_history t.2.2 t.1 t.2.1 st hcap]; exact length_takeLastN_le 10 _),
        add_to_history_history t.2.2 t.1 t.2.1 st hcap,
        takeLastN_append_absorb, List.append_assoc, List.singleton_append]
    rfl

/-- Claim C3: starting from the initial assistant state (capacity 10), the
dialogue history length never exceeds 10 after any sequence of append and
clear operations, and appending 15 turns leaves exactly the last 10
appended turns in chronological order. -/
theorem history_capacity_invariant :
    (∀ ops : List HistOp, ((ops.foldl applyHistOp initAIState).history.length ≤ 10))
    ∧ ∀ l : List (String × String × String), l.length = 15 →
        ((addOps l).foldl applyHistOp initAIState).history = (l.map turnOf).drop 5 := by
  constructor
  · intro ops
    exact (foldl_applyHistOp_invariant ops initAIState rfl (by simp [initAIState])).2
  · intro l hl
    rw [foldl_adds_history l initAIState rfl (by simp [initAIState])]
    unfold takeLastN
    simp only [initAIState, List.nil_append, List.length_map, hl]

/-- Witness for C3 at a concrete 15-turn append sequence. -/
theorem history_capacity_invariant_witness :
    ((List.range 15).map (fun i => (toString i, "a", "t"))).length = 15
    ∧ (((addOps ((List.range 15).map (fun i => (toString i, "a", "t")))).foldl
          applyHistOp initAIState).history
        = (((List.range 15).map (fun i => (toString i, "a", "t"))).map turnOf).drop 5) :=
  ⟨by simp, history_capacity_invariant.2 _ (by simp)⟩

/-! ### Claim C1: first-match dispatch -/

/-- Shared first-match lemma: on a non-empty command whose processed form
is first matched by rule `i`, dispatch reduces to invoking handler `i`. -/
theorem processCommand_of_first_match {σ : Type} (rules : List (Rule σ))
    (ask : String → σ → σ × String) (command : String) (st : σ) (i : Nat)
    (hi : i < rules.length) (cap : Option String)
    (hne : command ≠ "")
    (hmatch : reSearch (rules.get ⟨i, hi⟩).pattern (pyStrip (pyLower command)) = some cap)
    (hearlier : ∀ j (hj : j < i),
      reSearch (rules.get ⟨j, hj.trans hi⟩).pattern (pyStrip (pyLower command)) = none) :
    processCommand rules ask command st = applyMatched (rules.get ⟨i, hi⟩).handler cap st := by
  unfold processCommand
  rw [if_neg hne, findFirstRule_of_first hi hmatch hearlier]

/-- Claim C1 (amended: non-empty input): for every rule table, if the
processed input search-matches rule `i`'s pattern and no earlier rule's
pattern search-matches it, then `process_command` invokes exactly handler
`i` on the captured argument and returns its result. -/
theorem dispatch_first_match {σ : Type} (rules : List (Rule σ))
    (ask : String → σ → σ × String) (command : String) (st : σ) (i : Nat)
    (hi : i < rules.length) (cap : Option String)
    (hne : command ≠ "")
    (hmatch : reSearch (rules.get ⟨i, hi⟩).pattern (pyStrip (pyLower command)) = some cap)
    (hearlier : ∀ j (hj : j < i),
      reSearch (rules.get ⟨j, hj.trans hi⟩).pattern (pyStrip (pyLower command)) = none) :
    processCommand rules ask command st = applyMatched (rules.get ⟨i, hi⟩).handler cap st :=
  processCommand_of_first_match rules ask command st i hi cap hne hmatch hearlier

/-- Counterexample to claim C1 as frozen (quantifying over *every* input
string): on the empty input, `process_command` returns the fixed response
without invoking the matching handler, even though the pattern `(.*)`
search-matches the (lower-cased, trimmed) empty input and no earlier rule
exists. -/
theorem dispatch_first_match_counterexample :
    reSearch [RElem.grpAny0] (pyStrip (pyLower "")) = some (some "")
    ∧ processCommand [⟨[RElem.grpAny0], constHandler Unit⟩]
        (fun _ st => (st, "FALLBACK")) "" () = ((), didntCatchResponse)
    ∧ didntCatchResponse ≠ "HANDLED" :=
  ⟨by decide, rfl, by decide⟩

/-- A two-rule table with overlapping scopes used to witness C1: the later
`open` rule fires because the earlier `close` rule does not match. -/
def witnessOpenRules : List (Rule Unit) :=
  [⟨lits "close" ++ [.ws1, .grpAny1], constHandler Unit⟩,
   ⟨lits "open" ++ [.ws1, .grpAny1],
    fun cap st => (st, Except.ok ("Opening " ++ cap.getD ""))⟩]

/-- Witness for C1 on "open calculator" against `witnessOpenRules`. -/
theorem dispatch_first_match_witness :
    ("open calculator" ≠ ""
      ∧ reSearch (witnessOpenRules.get ⟨1, by decide⟩).pattern
          (pyStrip (pyLower "open calculator")) = some (some "calculator"))
    ∧ processCommand witnessOpenRules (fun _ st => (st, "FALLBACK")) "open calculator" ()
        = ((), "Opening calculator") := by
  refine ⟨⟨by decide, by decide⟩, ?_⟩
  have h := dispatch_first_match witnessOpenRules (fun _ st => (st, "FALLBACK"))
    "open calculator" () 1 (by decide) (some "calculator") (by decide) (by decide)
    (by
      intro j hj
      have hj0 : j = 0 := by omega
      subst hj0
      show reSearch (witnessOpenRules.get ⟨0, by decide⟩).pattern
          (pyStrip (pyLower "open calculator")) = none
      decide)
  exact h.trans (by decide)

/-! ### Claim C2: empty and whitespace-only input -/

/-- Claim C2 (amended): empty input returns the dispatcher's fixed
response with no rule consulted; every whitespace-only input (any
non-empty string that lower-cases and strips to the empty string) passes
the `if not command` guard, matches no rule in the table, and falls
through to the fallback adapter whose empty-question guard returns its
own fixed sentence.  In both cases this holds for every handler
assignment and every backend configuration (so no handler runs), and the
assistant state — in particular the dialogue history — is returned
unchanged. -/
theorem empty_and_whitespace_input (h : Handlers AIState)
    (cc : Option (String → Except PyErr String))
    (oc : Option (List (String × String) → Except PyErr String))
    (now tm : String) (st : AIState) :
    processCommand (command_patterns h) (jarvisAskQuestion cc oc now tm) "" st
      = (st, didntCatchResponse)
    ∧ ∀ command : String, command ≠ "" → pyStrip (pyLower command) = "" →
        processCommand (command_patterns h) (jarvisAskQuestion cc oc now tm) command st
          = (st, repeatQuestionResponse) := by
  refine ⟨rfl, fun command hne hstrip => ?_⟩
  unfold processCommand
  rw [if_neg hne, hstrip]
  rfl

/-- Witness for C2 at the whitespace-only inputs "   " and " \t\n ". -/
theorem empty_and_whitespace_input_witness :
    ("   " ≠ "" ∧ pyStrip (pyLower "   ") = ""
      ∧ " \t\n " ≠ "" ∧ pyStrip (pyLower " \t\n ") = "")
    ∧ processCommand (command_patterns (dummyHandlers AIState))
        (jarvisAskQuestion none none "ts" "tm") "   " initAIState
      = (initAIState, repeatQuestionResponse)
    ∧ processCommand (command_patterns (dummyHandlers AIState))
        (jarvisAskQuestion none none "ts" "tm") " \t\n " initAIState
      = (initAIState, repeatQuestionResponse) :=
  ⟨⟨by decide, by decide, by decide, by decide⟩,
   (empty_and_whitespace_input (dummyHandlers AIState) none none "ts" "tm"
      initAIState).2 "   " (by decide) (by decide),
   (empty_and_whitespace_input (dummyHandlers AIState) none none "ts" "tm"
      initAIState).2 " \t\n " (by decide) (by decide)⟩

/-- Counterexample to claim C2 as frozen: on whitespace-only input the
dispatcher does consult the rules (none matches the stripped input) and
returns the fallback adapter's repeat-question sentence, which is not the
dispatcher's fixed "didn\x27t catch that" response. -/
theorem empty_and_whitespace_input_counterexample :
    processCommand (command_patterns (dummyHandlers AIState))
        (jarvisAskQuestion none none "ts" "tm") "   " initAIState
      = (initAIState, repeatQuestionResponse)
    ∧ repeatQuestionResponse ≠ didntCatchResponse :=
  ⟨rfl, by decide⟩

/-! ### Claim C7: handler faults are caught -/

/-- Claim C7: when the first matching rule's handler raises, the
dispatcher catches the exception and returns the generic error sentence
(together with whatever state the handler left behind); the fault never
propagates. -/
theorem dispatch_catches_handler_fault {σ : Type} (rules : List (Rule σ))
    (ask : String → σ → σ × String) (command : String) (st st2 : σ) (e : PyErr)
    (i : Nat) (hi : i < rules.length) (cap : Option String)
    (hne : command ≠ "")
    (hmatch : reSearch (rules.get ⟨i, hi⟩).pattern (pyStrip (pyLower command)) = some cap)
    (hearlier : ∀ j (hj : j < i),
      reSearch (rules.get ⟨j, hj.trans hi⟩).pattern (pyStrip (pyLower command)) = none)
    (hraise : (rules.get ⟨i, hi⟩).handler cap st = (st2, Except.error e)) :
    processCommand rules ask command st = (st2, errorResponse) := by
  rw [processCommand_of_first_match rules ask command st i hi cap hne hmatch hearlier]
  unfold applyMatched
  rw [hraise]

/-- A one-rule table whose handler always raises, used to witness C7. -/
def raisingRules : List (Rule Unit) :=
  [⟨lits "boom", fun _ st => (st, Except.error (PyErr.other "handler blew up"))⟩]

/-- Witness for C7: the raising handler's fault is converted to the
generic error sentence. -/
theorem dispatch_catches_handler_fault_witness :
    ("boom" ≠ ""
      ∧ reSearch (raisingRules.get ⟨0, by decide⟩).pattern (pyStrip (pyLower "boom"))
          = some none)
    ∧ processCommand raisingRules (fun _ st => (st, "FALLBACK")) "boom" ()
        = ((), errorResponse) :=
  ⟨⟨by decide, by decide⟩,
   dispatch_catches_handler_fault raisingRules (fun _ st => (st, "FALLBACK")) "boom"
     () () (PyErr.other "handler blew up") 0 (by decide) none (by decide) (by decide)
     (by intro j hj; exact absurd hj (Nat.not_lt_zero j)) rfl⟩

/-! ### Claim C9: what the fallback receives -/

/-- Claim C9 (amended): for every non-empty input matching no rule,
`process_command` passes the lower-cased, trimmed input — not the raw
input — to `ask_question`, with no context and the default preferred
backend. -/
theorem fallback_gets_processed_input (h : Handlers AIState)
    (cc : Option (String → Except PyErr String))
    (oc : Option (List (String × String) → Except PyErr String))
    (now tm : String) (input : String) (st : AIState)
    (hne : input ≠ "")
    (hnone : findFirstRule (command_patterns h) (pyStrip (pyLower input)) = none) :
    processCommand (command_patterns h) (jarvisAskQuestion cc oc now tm) input st
      = ask_question cc oc now tm st (pyStrip (pyLower input)) none "claude" := by
  unfold processCommand
  rw [if_neg hne, hnone]
  rfl

/-- Counterexample to claim C9 as frozen: with a succeeding backend, the
dialogue turn recorded for the unmatched input "TELL ME A JOKE" carries
the question "tell me a joke" — the lower-cased text, not the raw input. -/
theorem fallback_gets_processed_input_counterexample :
    processCommand (command_patterns (dummyHandlers AIState))
        (jarvisAskQuestion (some (fun _ => Except.ok "ANSWER")) none "ts" "tm")
        "TELL ME A JOKE" initAIState
      = ({ initAIState with history := [⟨"tell me a joke", "ANSWER", "ts"⟩] }, "ANSWER")
    ∧ "tell me a joke" ≠ "TELL ME A JOKE" :=
  ⟨rfl, by decide⟩

/-- Witness for C9 on the unmatched input "TELL ME A STORY". -/
theorem fallback_gets_processed_input_witness :
    ("TELL ME A STORY" ≠ ""
      ∧ findFirstRule (command_patterns (dummyHandlers AIState))
          (pyStrip (pyLower "TELL ME A STORY")) = none)
    ∧ processCommand (command_patterns (dummyHandlers AIState))
        (jarvisAskQuestion none none "ts" "tm") "TELL ME A STORY" initAIState
      = ask_question none none "ts" "tm" initAIState
          (pyStrip (pyLower "TELL ME A STORY")) none "claude" :=
  ⟨⟨by decide, rfl⟩,
   fallback_gets_processed_input (dummyHandlers AIState) none none "ts" "tm"
     "TELL ME A STORY" initAIState (by decide) rfl⟩

/-! ### Claim C4: personality modes -/

/-- Claim C4: each of the four enumerated modes replaces the active
profile with its template and returns a confirmation naming the mode;
any other mode leaves the state untouched and returns the error listing
the four valid modes. -/
theorem personality_mode_spec :
    (∀ st : AIState,
      set_personality_mode st "professional"
        = ({ st with jarvis_personality := professionalProfile },
           "Personality mode updated to professional, sir.")
      ∧ set_personality_mode st "friendly"
        = ({ st with jarvis_personality := friendlyProfile },
           "Personality mode updated to friendly, sir.")
      ∧ set_personality_mode st "technical"
        = ({ st with jarvis_personality := technicalProfile },
           "Personality mode updated to technical, sir.")
      ∧ set_personality_mode st "iron_man"
        = ({ st with jarvis_personality := ironManProfile },
           "Personality mode updated to iron_man, sir."))
    ∧ ∀ (st : AIState) (mode : String),
        mode ∉ ["professional", "friendly", "technical", "iron_man"] →
        set_personality_mode st mode = (st, invalidModeResponse) := by
  constructor
  · intro st
    exact ⟨rfl, rfl, rfl, rfl⟩
  · intro st mode hmode
    have h1 : mode ≠ "professional" := fun h => hmode (by simp [h])
    have h2 : mode ≠ "friendly" := fun h => hmode (by simp [h])
    have h3 : mode ≠ "technical" := fun h => hmode (by simp [h])
    have h4 : mode ≠ "iron_man" := fun h => hmode (by simp [h])
    unfold set_personality_mode
    have hfind : personality_modes.find? (fun p => p.1 == mode) = none := by
      rw [List.find?_eq_none]
      intro x hx
      simp only [personality_modes, List.mem_cons, List.not_mem_nil, or_false] at hx
      rcases hx with h | h | h | h <;> subst h <;>
        simp only [beq_iff_eq] <;> intro he
      · exact h1 he.symm
      · exact h2 he.symm
      · exact h3 he.symm
      · exact h4 he.symm
    rw [hfind]

/-- Witness for C4 at the invalid mode "bogus". -/
theorem personality_mode_spec_witness :
    "bogus" ∉ ["professional", "friendly", "technical", "iron_man"]
    ∧ set_personality_mode initAIState "bogus" = (initAIState, invalidModeResponse) :=
  ⟨by decide, personality_mode_spec.2 initAIState "bogus" (by decide)⟩

/-! ### Claim C5: the volume handler -/

/-- Claim C5 (amended: every percent sign is removed, not only a trailing
one): when the cleaned argument parses as an integer `n`, the handler
delegates exactly `n` to the collaborator without clamping; when it does
not parse, the handler returns the validation sentence naming the
offending input and the 0–100 range, and never calls the collaborator
(its result is independent of the collaborator). -/
theorem set_volume_spec :
    ∀ (adjust : Int → String) (level : String),
      (∀ n : Int,
        pyIntOfString (pyStrip (pyRemoveChar '%' level)) = some n →
          handle_set_volume adjust level = adjust n)
      ∧ (pyIntOfString (pyStrip (pyRemoveChar '%' level)) = none →
          handle_set_volume adjust level = invalidVolumeResponse level
          ∧ ∀ adjust2 : Int → String,
              handle_set_volume adjust level = handle_set_volume adjust2 level) := by
  intro adjust level
  constructor
  · intro n hn
    unfold handle_set_volume
    rw [hn]
  · intro hn
    constructor
    · unfold handle_set_volume
      rw [hn]
    · intro adjust2
      unfold handle_set_volume
      rw [hn]

/-- Counterexample to claim C5 as frozen: on the argument "5%5" the code
removes *all* percent signs, parses 55, and delegates it — whereas
stripping only a trailing percent sign would leave "5%5" unparseable and
demand the validation error with no delegate call. -/
theorem set_volume_counterexample :
    handle_set_volume (fun n => "DELEGATED " ++ toString n) "5%5" = "DELEGATED 55"
    ∧ "DELEGATED 55" ≠ invalidVolumeResponse "5%5" :=
  ⟨rfl, by decide⟩

/-- Witness for C5: "55%" delegates 55; "abc" yields the validation error;
"150" is delegated unclamped. -/
theorem set_volume_spec_witness :
    (pyIntOfString (pyStrip (pyRemoveChar '%' "55%")) = some 55
      ∧ handle_set_volume (fun n => "DELEGATED " ++ toString n) "55%" = "DELEGATED 55")
    ∧ (pyIntOfString (pyStrip (pyRemoveChar '%' "abc")) = none
      ∧ handle_set_volume (fun n => "DELEGATED " ++ toString n) "abc"
          = invalidVolumeResponse "abc")
    ∧ handle_set_volume (fun n => "DELEGATED " ++ toString n) "150" = "DELEGATED 150" :=
  ⟨⟨by decide,
    ((set_volume_spec (fun n => "DELEGATED " ++ toString n) "55%").1 55 (by decide)).trans
      (by decide)⟩,
   ⟨by decide,
    ((set_volume_spec (fun n => "DELEGATED " ++ toString n) "abc").2 (by decide)).1⟩,
   ((set_volume_spec (fun n => "DELEGATED " ++ toString n) "150").1 150 (by decide)).trans
     (by decide)⟩

/-! ### Claim C6: the create-folder handler and the missing `os` import -/

/-- Claim C6 (code bug): the blank-argument branch returns the
prompt-for-name message without touching the collaborator, but for every
non-blank argument the handler raises `NameError` (`os` is never imported
in `command_processor.py`) instead of resolving the Desktop path and
delegating; through the dispatcher, "create folder MyDocs" therefore
yields the generic error sentence and the collaborator is never called
(the result does not depend on `cf`). -/
theorem create_folder_missing_import :
    ∀ (cf : String → String) (h : Handlers AIState)
      (cc : Option (String → Except PyErr String))
      (oc : Option (List (String × String) → Except PyErr String))
      (now tm : String) (st : AIState),
      handle_create_folder cf "   " = Except.ok createFolderPrompt
      ∧ handle_create_folder cf "MyDocs" = Except.error (PyErr.nameError "os")
      ∧ processCommand
          (command_patterns
            { h with handle_create_folder := liftArg (handle_create_folder cf) })
          (jarvisAskQuestion cc oc now tm) "create folder MyDocs" st
        = (st, errorResponse) := by
  intro cf h cc oc now tm st
  exact ⟨rfl, rfl, rfl⟩

/-! ### Claim C8: backend faults in the fallback adapter -/

/-- Claim C8: for both adapters, a fault raised by the remote backend call
is caught and converted to the adapter's fixed apologetic sentence with
the dialogue history unchanged, while a successful backend reply is
returned verbatim after (and only after) the turn is appended. -/
theorem backend_fault_handling :
    ∀ (now : String) (st : AIState) (q : String) (ctx : Option String)
      (bc : String → Except PyErr String)
      (bo : List (String × String) → Except PyErr String),
      (∀ e, bc (claude_full_prompt st q ctx) = Except.error e →
        ask_claude (some bc) now st q ctx = (st, claudeApology))
      ∧ (∀ ans, bc (claude_full_prompt st q ctx) = Except.ok ans →
        ask_claude (some bc) now st q ctx = (add_to_history now st q ans, ans))
      ∧ (∀ e, bo (openai_messages st q ctx) = Except.error e →
        ask_openai (some bo) now st q ctx = (st, openaiApology))
      ∧ (∀ ans, bo (openai_messages st q ctx) = Except.ok ans →
        ask_openai (some bo) now st q ctx = (add_to_history now st q ans, ans)) := by
  intro now st q ctx bc bo
  refine ⟨fun e he => ?_, fun ans ha => ?_, fun e he => ?_, fun ans ha => ?_⟩
  · simp only [ask_claude]
    rw [he]
  · simp only [ask_claude]
    rw [ha]
  · simp only [ask_openai]
    rw [he]
  · simp only [ask_openai]
    rw [ha]

/-- Witness for C8 with a failing and a succeeding concrete backend. -/
theorem backend_fault_handling_witness :
    ask_claude (some (fun _ => Except.error (PyErr.other "network down"))) "ts"
        initAIState "hello" none
      = (initAIState, claudeApology)
    ∧ ask_claude (some (fun _ => Except.ok "OK")) "ts" initAIState "hello" none
      = (add_to_history "ts" initAIState "hello" "OK", "OK")
    ∧ ask_openai (some (fun _ => Except.error (PyErr.other "rate limited"))) "ts"
        initAIState "hello" none
      = (initAIState, openaiApology)
    ∧ ask_openai (some (fun _ => Except.ok "OK")) "ts" initAIState "hello" none
      = (add_to_history "ts" initAIState "hello" "OK", "OK") :=
  ⟨(backend_fault_handling "ts" initAIState "hello" none
      (fun _ => Except.error (PyErr.other "network down")) (fun _ => Except.ok "OK")).1
      (PyErr.other "network down") rfl,
   (backend_fault_handling "ts" initAIState "hello" none
      (fun _ => Except.ok "OK") (fun _ => Except.ok "OK")).2.1 "OK" rfl,
   (backend_fault_handling "ts" initAIState "hello" none
      (fun _ => Except.ok "OK") (fun _ => Except.error (PyErr.other "rate limited"))).2.2.1
      (PyErr.other "rate limited") rfl,
   (backend_fault_handling "ts" initAIState "hello" none
      (fun _ => Except.ok "OK") (fun _ => Except.ok "OK")).2.2.2 "OK" rfl⟩

/-! ### Claim C10: the mute handler -/

/-- Claim C10: `handle_mute` delegates `adjust_volume(0)` to the
collaborator (visible through the state the call threads) and returns the
constant sentence regardless of the collaborator's returned status
string; in particular, with the real `adjust_volume` model the
collaborator's "Volume set to 0%" status is discarded. -/
theorem mute_discards_collaborator_status :
    (∀ (σ : Type) (adjust : Int → σ → σ × String) (st : σ),
      handle_mute adjust st = ((adjust 0 st).1, "Audio muted, sir."))
    ∧ adjust_volume (fun _ => Except.ok ()) 0 = "Volume set to 0%"
    ∧ (∀ st : AIState,
        handle_mute (fun l s => (s, adjust_volume (fun _ => Except.ok ()) l)) st
          = (st, "Audio muted, sir.")) :=
  ⟨fun _ _ _ => rfl, by decide, fun _ => rfl⟩
